import Mathlib

/-
Verification of the financial projection engine of the my-investments
repository (src/services/calculations.ts, loanCalculations.ts,
fireCalculations.ts) against its natural-language specification.

Embedding conventions:
* All JavaScript numbers are modelled as exact rationals (ℚ); the claims
  under study are stated over exact arithmetic ("within rounding
  tolerance; exactly, over exact arithmetic").
* A JavaScript `Date` is modelled as a record carrying its millisecond
  timestamp (`time`, as returned by `getTime()`) together with its
  calendar year and month fields (as returned by `getFullYear()` /
  `getMonth()`).  ISO date strings are modelled by their parsed `Date`
  value.  `setFullYear` is modelled as bumping the calendar year; none of
  the claims observes the timestamp of a date produced that way.
* `Math.pow` applied to an exponent that is statically an integer
  (month counts, term lengths, year indices of the projection loops) is
  embedded as monoid/zpow powers, which agree exactly with real
  exponentiation at integer exponents.  The single place where the code
  raises to a general non-integer exponent (compounding over decimal
  years in `calculateCurrentValue` / `calculateCompoundInterest`) is
  embedded through an explicit function parameter `mpow : ℚ → ℚ → ℚ`
  standing for the exact real power function; theorems about those
  functions are quantified over `mpow`, and concrete witnesses
  instantiate it with `powInt`, which agrees with `Math.pow` whenever the
  exponent is an integer.
* The engine functions that read the ambient clock (`new Date()` inside
  `calculateCurrentBalance`, `calculateLoanPaymentAtMonth`,
  `calculateFIRESummary`, ...) receive that instant as an explicit
  `now : JSDate` argument of the embedding, which is the standard shallow
  embedding of the ambient-state read.
-/

/-- Milliseconds per year as used by `getYearsBetweenDates`:
`1000 * 60 * 60 * 24 * 365.25`. -/
def msPerYear : ℚ := 1000 * 60 * 60 * 24 * (36525 / 100)

/-- Milliseconds per month as used by the loan-schedule month counters:
`1000 * 60 * 60 * 24 * 30.44`. -/
def msPerMonth : ℚ := 1000 * 60 * 60 * 24 * (3044 / 100)

/-- Model of a JavaScript `Date`: millisecond timestamp plus the calendar
year/month fields.  ISO date strings of the records are modelled by their
parsed date value. -/
structure JSDate where
  time : ℚ
  year : ℤ
  month : ℤ
deriving DecidableEq

/-- Model of `Date.prototype.setFullYear(date.getFullYear() + k)`: the
calendar year is bumped; no claim observes the timestamp of a date
produced this way. -/
def addYears (d : JSDate) (k : ℤ) : JSDate :=
  { d with year := d.year + k }

/-- `getYearsBetweenDates` (calculations.ts): decimal years between two
dates, `(end − start) / msPerYear`. -/
def getYearsBetweenDates (startDate : JSDate) (endDate : JSDate) : ℚ :=
  (endDate.time - startDate.time) / msPerYear

/-- `getMonthsBetweenDates` (calculations.ts): whole calendar months
between two dates, `(end.year − start.year) * 12 + (end.month − start.month)`. -/
def getMonthsBetweenDates (startDate : JSDate) (endDate : JSDate) : ℤ :=
  (endDate.year - startDate.year) * 12 + (endDate.month - startDate.month)

/-- The discriminant of the `Investment` union (types/investments.ts). -/
inductive InvestmentType where
  | stock
  | fund
  | realEstate
  | crypto
deriving DecidableEq

/-- Model of the `Investment` union (types/investments.ts), flattened:
the per-variant fields `monthlyContribution` (funds) and
`monthlyRentalIncome` (real estate) are carried alongside the base
fields; the optional override pair is `lastKnownValue` / `lastKnownDate`. -/
structure Investment where
  type : InvestmentType
  amountInvested : ℚ
  currentValue : ℚ
  expectedAnnualROI : ℚ
  purchaseDate : JSDate
  lastKnownValue : Option ℚ
  lastKnownDate : Option JSDate
  monthlyContribution : ℚ
  monthlyRentalIncome : Option ℚ
deriving DecidableEq

/-- The repayment convention of a loan (types, loans). -/
inductive RepaymentType where
  | annuity
  | serial
deriving DecidableEq

/-- Model of the `Loan` record: principal, annual rate (percent), start
date, term in months, repayment convention and the refinancing
eligibility flag read by `calculateLoanPaymentAtMonth`. -/
structure Loan where
  loanAmount : ℚ
  remainingBalance : ℚ
  interestRate : ℚ
  startDate : JSDate
  termMonths : ℤ
  repaymentType : RepaymentType
  canBeRefinanced : Bool
deriving DecidableEq

/-- Model of `FIRESettings` (types/fire.ts); the per-class rate record is
modelled as a function from the class tag. -/
structure FIRESettings where
  monthlyRequiredExpenses : ℚ
  passiveIncomeRates : InvestmentType → ℚ
  interestRateOverride : Option ℚ
  rentalIncomeYearlyIncrease : ℚ
  refinancingEnabled : Bool
  interestOnlyEnabled : Bool
  stopContributionsEnabled : Bool
  contributionInsignificanceThreshold : ℚ

/-- `DEFAULT_PASSIVE_INCOME_RATES` (types/fire.ts). -/
def DEFAULT_PASSIVE_INCOME_RATES : InvestmentType → ℚ
  | InvestmentType.realEstate => 0
  | InvestmentType.fund => 4
  | InvestmentType.stock => 3
  | InvestmentType.crypto => 2

/-- `DEFAULT_FIRE_SETTINGS` (types/fire.ts). -/
def DEFAULT_FIRE_SETTINGS : FIRESettings where
  monthlyRequiredExpenses := 0
  passiveIncomeRates := DEFAULT_PASSIVE_INCOME_RATES
  interestRateOverride := none
  rentalIncomeYearlyIncrease := 2
  refinancingEnabled := false
  interestOnlyEnabled := false
  stopContributionsEnabled := false
  contributionInsignificanceThreshold := 1

/-- A concrete instance of the `mpow` parameter: the power function on
integer exponents, `b ^ e.num`.  It agrees with `Math.pow` (exact real
exponentiation) whenever the exponent is an integer, which is the case at
every concrete input the witnesses below evaluate. -/
def powInt (b e : ℚ) : ℚ := b ^ e.num

/-- `calculateCompoundInterest` (calculations.ts):
`presentValue * (1 + rate/100) ^ years`, with the general-exponent power
supplied as `mpow`. -/
def calculateCompoundInterest (mpow : ℚ → ℚ → ℚ)
    (presentValue annualRate years : ℚ) : ℚ :=
  let rate := annualRate / 100
  presentValue * mpow (1 + rate) years

/-- `calculateWithMonthlyContributions` (calculations.ts): future value of
the present value plus the future value of an ordinary annuity of monthly
contributions. -/
def calculateWithMonthlyContributions (mpow : ℚ → ℚ → ℚ)
    (presentValue annualRate years monthlyContribution : ℚ) : ℚ :=
  let rate := annualRate / 100
  let monthlyRate := rate / 12
  let months := years * 12
  let fvPresent := presentValue * mpow (1 + rate) years
  let fvContributions :=
    if monthlyRate = 0 then monthlyContribution * months
    else monthlyContribution * (mpow (1 + monthlyRate) months - 1) / monthlyRate
  fvPresent + fvContributions

/-- `calculateCurrentValue` (calculations.ts, lines 209-266): reconstruct
today's value from the override baseline (`lastKnownValue` /
`lastKnownDate`) when both are present, else from the acquisition
baseline (`amountInvested` / `purchaseDate`); funds with contributions
additionally accumulate the compounded monthly contributions over the
whole months elapsed since the baseline date. -/
def calculateCurrentValue (mpow : ℚ → ℚ → ℚ)
    (investment : Investment) (asOf : JSDate) : ℚ :=
  let baseline : ℚ × JSDate :=
    match investment.lastKnownValue, investment.lastKnownDate with
    | some v, some d => (v, d)
    | _, _ => (investment.amountInvested, investment.purchaseDate)
  let startValue := baseline.1
  let startDate := baseline.2
  let yearsElapsed := getYearsBetweenDates startDate asOf
  if yearsElapsed ≤ 0 then startValue
  else if investment.type = InvestmentType.fund ∧ investment.monthlyContribution > 0 then
    let compoundedInitial :=
      calculateCompoundInterest mpow startValue investment.expectedAnnualROI yearsElapsed
    let monthsElapsed := getMonthsBetweenDates startDate asOf
    if monthsElapsed ≤ 0 then compoundedInitial
    else
      let monthlyRate := investment.expectedAnnualROI / 100 / 12
      let contributionsValue :=
        if monthlyRate = 0 then investment.monthlyContribution * monthsElapsed
        else investment.monthlyContribution *
          ((1 + monthlyRate) ^ monthsElapsed - 1) / monthlyRate
      compoundedInitial + contributionsValue
  else
    calculateCompoundInterest mpow startValue investment.expectedAnnualROI yearsElapsed

/-- `calculateFutureValue` (calculations.ts, second half): project forward
from the reconstructed current value. -/
def calculateFutureValue (mpow : ℚ → ℚ → ℚ)
    (investment : Investment) (years : ℚ) (now : JSDate) : ℚ :=
  let currentValue := calculateCurrentValue mpow investment now
  if investment.type = InvestmentType.fund ∧ investment.monthlyContribution > 0 then
    calculateWithMonthlyContributions mpow currentValue
      investment.expectedAnnualROI years investment.monthlyContribution
  else
    calculateCompoundInterest mpow currentValue investment.expectedAnnualROI years

/-- `calculateAnnuityMonthlyPayment` (loanCalculations.ts, lines 13-27):
`termMonths ≤ 0` returns 0; zero annual rate returns
`principal / termMonths`; otherwise the standard annuity formula
`P * (r * (1+r)^n) / ((1+r)^n - 1)` with the monthly rate `r`. -/
def calculateAnnuityMonthlyPayment (principal annualRate : ℚ) (termMonths : ℤ) : ℚ :=
  if termMonths ≤ 0 then 0
  else if annualRate = 0 then principal / (termMonths : ℚ)
  else
    let monthlyRate := annualRate / 100 / 12
    principal * (monthlyRate * (1 + monthlyRate) ^ termMonths) /
      ((1 + monthlyRate) ^ termMonths - 1)

/-- `calculateSerialMonthlyPrincipal` (loanCalculations.ts): the constant
principal portion of a serial loan, 0 for a non-positive term. -/
def calculateSerialMonthlyPrincipal (principal : ℚ) (termMonths : ℤ) : ℚ :=
  if termMonths ≤ 0 then 0 else principal / (termMonths : ℚ)

/-- One row of an amortization schedule (`LoanPayment`). -/
structure LoanPayment where
  month : ℕ
  payment : ℚ
  principal : ℚ
  interest : ℚ
  remainingBalance : ℚ
deriving DecidableEq, Inhabited

/-- The annuity branch of the schedule loop of
`generateAmortizationSchedule`: each iteration charges interest on the
running balance, takes the rest of the constant payment as principal and
floors the new balance at zero.  `month` is the 1-based month counter of
the source loop, `k` the number of remaining iterations. -/
def annuitySchedule (monthlyPayment monthlyRate : ℚ) :
    (month : ℕ) → (k : ℕ) → (balance : ℚ) → List LoanPayment
  | _, 0, _ => []
  | month, k + 1, balance =>
    let interest := balance * monthlyRate
    let principal := monthlyPayment - interest
    let balance' := max 0 (balance - principal)
    { month := month, payment := monthlyPayment, principal := principal,
      interest := interest, remainingBalance := balance' } ::
      annuitySchedule monthlyPayment monthlyRate (month + 1) k balance'

/-- The serial branch of the schedule loop of
`generateAmortizationSchedule`: constant principal, interest on the
running balance, balance floored at zero. -/
def serialSchedule (monthlyPrincipal monthlyRate : ℚ) :
    (month : ℕ) → (k : ℕ) → (balance : ℚ) → List LoanPayment
  | _, 0, _ => []
  | month, k + 1, balance =>
    let interest := balance * monthlyRate
    let payment := monthlyPrincipal + interest
    let balance' := max 0 (balance - monthlyPrincipal)
    { month := month, payment := payment, principal := monthlyPrincipal,
      interest := interest, remainingBalance := balance' } ::
      serialSchedule monthlyPrincipal monthlyRate (month + 1) k balance'

/-- `generateAmortizationSchedule` (loanCalculations.ts, lines 45-97):
full schedule of a loan under the optional interest-rate override; a
non-positive term yields the empty schedule (the source loop body never
runs). -/
def generateAmortizationSchedule (loan : Loan)
    (interestRateOverride : Option ℚ) : List LoanPayment :=
  let effectiveRate := interestRateOverride.getD loan.interestRate
  let monthlyRate := effectiveRate / 100 / 12
  match loan.repaymentType with
  | RepaymentType.annuity =>
    annuitySchedule
      (calculateAnnuityMonthlyPayment loan.loanAmount effectiveRate loan.termMonths)
      monthlyRate 1 loan.termMonths.toNat loan.loanAmount
  | RepaymentType.serial =>
    serialSchedule
      (calculateSerialMonthlyPrincipal loan.loanAmount loan.termMonths)
      monthlyRate 1 loan.termMonths.toNat loan.loanAmount

/-- The whole-month counter shared by `calculateCurrentBalance`,
`getLoanBalanceAtMonth`, `calculateLoanPaymentAtMonth` and
`calculateNetWorth`: `max(0, floor((now − start) / msPerMonth))`. -/
def monthsPassedSince (startDate : JSDate) (now : JSDate) : ℤ :=
  max 0 ⌊(now.time - startDate.time) / msPerMonth⌋

/-- `calculateCurrentBalance` (loanCalculations.ts, lines 102-117):
remaining balance as of the ambient clock reading `now`. -/
def calculateCurrentBalance (loan : Loan) (now : JSDate) : ℚ :=
  let monthsPassed := monthsPassedSince loan.startDate now
  if monthsPassed ≤ 0 then loan.loanAmount
  else if loan.termMonths ≤ monthsPassed then 0
  else
    let schedule := generateAmortizationSchedule loan none
    match schedule[(min (monthsPassed - 1) ((schedule.length : ℤ) - 1)).toNat]? with
    | some p => p.remainingBalance
    | none => 0

/-- The `{total, interest, principal}` triples returned by the payment
functions of fireCalculations.ts. -/
structure PaymentTriple where
  total : ℚ
  interest : ℚ
  principal : ℚ
deriving DecidableEq

/-- `REFINANCING_TERM_MONTHS` (fireCalculations.ts): 30 years. -/
def REFINANCING_TERM_MONTHS : ℤ := 360

/-- `getLoanBalanceAtMonth` (fireCalculations.ts, lines 116-142):
remaining balance `monthsFromNow` months after the clock reading `now`. -/
def getLoanBalanceAtMonth (loan : Loan) (monthsFromNow : ℤ)
    (interestRateOverride : Option ℚ) (now : JSDate) : ℚ :=
  let schedule := generateAmortizationSchedule loan interestRateOverride
  let currentMonthsPassed := monthsPassedSince loan.startDate now
  let targetMonth := currentMonthsPassed + monthsFromNow
  if targetMonth ≤ 0 then loan.loanAmount
  else if loan.termMonths ≤ targetMonth then 0
  else
    match schedule[(min (targetMonth - 1) ((schedule.length : ℤ) - 1)).toNat]? with
    | some p => p.remainingBalance
    | none => 0

/-- `calculateRefinancedPayment` (fireCalculations.ts, lines 148-178):
fresh annuity payment over a constant 360-month horizon against the
remaining balance at `monthsFromNow`. -/
def calculateRefinancedPayment (loan : Loan) (monthsFromNow : ℤ)
    (interestRateOverride : Option ℚ) (now : JSDate) : PaymentTriple :=
  let effectiveRate := interestRateOverride.getD loan.interestRate
  let remainingBalance := getLoanBalanceAtMonth loan monthsFromNow interestRateOverride now
  if remainingBalance ≤ 0 then { total := 0, interest := 0, principal := 0 }
  else
    let monthlyPayment :=
      calculateAnnuityMonthlyPayment remainingBalance effectiveRate REFINANCING_TERM_MONTHS
    let monthlyRate := effectiveRate / 100 / 12
    let interest := remainingBalance * monthlyRate
    let principal := monthlyPayment - interest
    { total := monthlyPayment, interest := interest, principal := principal }

/-- `calculateLoanPaymentAtMonth` (fireCalculations.ts, lines 184-228):
dispatches to the refinanced calculation when requested and eligible,
otherwise reads the schedule entry at `currentMonthsPassed + monthsFromNow`
(zero triple at or past term end, first entry for a negative target
month). -/
def calculateLoanPaymentAtMonth (loan : Loan) (monthsFromNow : ℤ)
    (interestRateOverride : Option ℚ) (useRefinancing : Bool)
    (now : JSDate) : PaymentTriple :=
  if useRefinancing ∧ loan.canBeRefinanced then
    calculateRefinancedPayment loan monthsFromNow interestRateOverride now
  else
    let schedule := generateAmortizationSchedule loan interestRateOverride
    let currentMonthsPassed := monthsPassedSince loan.startDate now
    let targetMonth := currentMonthsPassed + monthsFromNow
    if loan.termMonths ≤ targetMonth then { total := 0, interest := 0, principal := 0 }
    else if targetMonth < 0 ∧ schedule.length > 0 then
      match schedule with
      | p :: _ => { total := p.payment, interest := p.interest, principal := p.principal }
      | [] => { total := 0, interest := 0, principal := 0 }
    else
      match schedule[(min targetMonth ((schedule.length : ℤ) - 1)).toNat]? with
      | some p => { total := p.payment, interest := p.interest, principal := p.principal }
      | none => { total := 0, interest := 0, principal := 0 }

/-- `calculateMonthlyIncome` (fireCalculations.ts, lines 30-42): rental
income for real estate, else the per-class withdrawal rate applied to the
reconstructed current value. -/
def calculateMonthlyIncome (mpow : ℚ → ℚ → ℚ) (investment : Investment)
    (settings : FIRESettings) (now : JSDate) : ℚ :=
  if investment.type = InvestmentType.realEstate then
    investment.monthlyRentalIncome.getD 0
  else
    let annualRate := settings.passiveIncomeRates investment.type / 100
    let currentValue := calculateCurrentValue mpow investment now
    currentValue * annualRate / 12

/-- `calculateProjectedMonthlyIncome` (fireCalculations.ts, lines 47-66):
rental income grown by the yearly increase for real estate (0 when no
rental income is recorded), else the withdrawal rate applied to the
projected value. -/
def calculateProjectedMonthlyIncome (mpow : ℚ → ℚ → ℚ)
    (investment : Investment) (years : ℚ) (settings : FIRESettings)
    (now : JSDate) : ℚ :=
  if investment.type = InvestmentType.realEstate then
    let rentalIncome := investment.monthlyRentalIncome.getD 0
    if rentalIncome = 0 then 0
    else
      let annualIncrease := settings.rentalIncomeYearlyIncrease / 100
      let growthFactor := mpow (1 + annualIncrease) years
      rentalIncome * growthFactor
  else
    let futureValue := calculateFutureValue mpow investment years now
    let annualRate := settings.passiveIncomeRates investment.type / 100
    futureValue * annualRate / 12

/-- `calculateTotalLoanExpenses` (fireCalculations.ts, lines 233-255):
componentwise sum of `calculateLoanPaymentAtMonth` over all loans. -/
def calculateTotalLoanExpenses (loans : List Loan) (monthsFromNow : ℤ)
    (interestRateOverride : Option ℚ) (useRefinancing : Bool)
    (now : JSDate) : PaymentTriple :=
  loans.foldl
    (fun acc loan =>
      let payment :=
        calculateLoanPaymentAtMonth loan monthsFromNow interestRateOverride
          useRefinancing now
      { total := acc.total + payment.total,
        interest := acc.interest + payment.interest,
        principal := acc.principal + payment.principal })
    { total := 0, interest := 0, principal := 0 }

/-- The per-class income breakdown accumulated by
`calculateTotalMonthlyIncomeAtYear`. -/
structure IncomeByType where
  realEstate : ℚ
  funds : ℚ
  stocks : ℚ
  crypto : ℚ
deriving DecidableEq

/-- The `{total, byType}` result of `calculateTotalMonthlyIncomeAtYear`. -/
structure TotalIncome where
  total : ℚ
  byType : IncomeByType
deriving DecidableEq

/-- `calculateTotalMonthlyIncomeAtYear` (fireCalculations.ts, lines
260-302): accumulate the projected income per class and return the total
with the breakdown. -/
def calculateTotalMonthlyIncomeAtYear (mpow : ℚ → ℚ → ℚ)
    (investments : List Investment) (years : ℚ) (settings : FIRESettings)
    (now : JSDate) : TotalIncome :=
  let byType := investments.foldl
    (fun acc inv =>
      let income := calculateProjectedMonthlyIncome mpow inv years settings now
      match inv.type with
      | InvestmentType.realEstate => { acc with realEstate := acc.realEstate + income }
      | InvestmentType.fund => { acc with funds := acc.funds + income }
      | InvestmentType.stock => { acc with stocks := acc.stocks + income }
      | InvestmentType.crypto => { acc with crypto := acc.crypto + income })
    { realEstate := 0, funds := 0, stocks := 0, crypto := 0 }
  { total := byType.realEstate + byType.funds + byType.stocks + byType.crypto,
    byType := byType }

/-- `calculateNetWorth` (fireCalculations.ts, lines 307-337): projected
asset values minus remaining loan balances at the year offset. -/
def calculateNetWorth (mpow : ℚ → ℚ → ℚ) (investments : List Investment)
    (loans : List Loan) (years : ℕ) (now : JSDate) : ℚ :=
  let totalAssets := investments.foldl
    (fun sum inv => sum + calculateFutureValue mpow inv (years : ℚ) now) 0
  let totalLoans := loans.foldl
    (fun sum loan =>
      let schedule := generateAmortizationSchedule loan none
      let currentMonthsPassed := monthsPassedSince loan.startDate now
      let targetMonth := currentMonthsPassed + (years : ℤ) * 12
      if loan.termMonths ≤ targetMonth then sum
      else
        match schedule[(min targetMonth ((schedule.length : ℤ) - 1)).toNat]? with
        | some p => sum + p.remainingBalance
        | none => sum + 0)
    0
  totalAssets - totalLoans

/-- The bounded crossover search of `calculateFIRESummary`: scan `k`
consecutive years starting at `y`, returning the first year whose
condition holds.  `scanFI f 1 50` is the source's `for (year = 1; year <=
50; year++) ... break` loop. -/
def scanFI (f : ℕ → Bool) : (y : ℕ) → (k : ℕ) → Option ℕ
  | _, 0 => none
  | y, k + 1 => if f y then some y else scanFI f (y + 1) k

/-- Round to two decimals as the summary does:
`Math.round(x * 100) / 100`. -/
def roundCents (x : ℚ) : ℚ := (round (x * 100) : ℤ) / 100

/-- Model of the `FIRESummary` result record. -/
structure FIRESummary where
  currentMonthlyIncome : ℚ
  currentMonthlyExpenses : ℚ
  currentSurplus : ℚ
  currentNetWorth : ℚ
  yearsToFI : Option ℕ
  fiDate : Option JSDate
  fiProgress : ℚ
  isFinanciallyIndependent : Bool
deriving DecidableEq

/-- `calculateFIRESummary` (fireCalculations.ts, lines 389-457): current
income versus current obligations, the already-independent test
(`income ≥ expenses && expenses > 0`), and the bounded year-1-to-50
crossover scan when not yet independent and the obligations are
positive. -/
def calculateFIRESummary (mpow : ℚ → ℚ → ℚ) (investments : List Investment)
    (loans : List Loan) (settings : FIRESettings) (now : JSDate) : FIRESummary :=
  let useRefinancing := settings.refinancingEnabled
  let currentIncome := calculateTotalMonthlyIncomeAtYear mpow investments 0 settings now
  let loanExpenses :=
    calculateTotalLoanExpenses loans 0 settings.interestRateOverride useRefinancing now
  let currentNetWorth := calculateNetWorth mpow investments loans 0 now
  let requiredExpenses := settings.monthlyRequiredExpenses
  let totalExpenses := loanExpenses.total + requiredExpenses
  let isFinanciallyIndependent : Bool :=
    decide (totalExpenses ≤ currentIncome.total) && decide (0 < totalExpenses)
  let fiProgress : ℚ :=
    if 0 < totalExpenses then currentIncome.total / totalExpenses * 100
    else if 0 < currentIncome.total then 100
    else 0
  let fiCond : ℕ → Bool := fun year =>
    let projectedIncome :=
      calculateTotalMonthlyIncomeAtYear mpow investments (year : ℚ) settings now
    let projectedLoanExpenses :=
      calculateTotalLoanExpenses loans ((year : ℤ) * 12) settings.interestRateOverride
        useRefinancing now
    decide (projectedLoanExpenses.total + requiredExpenses ≤ projectedIncome.total)
  let searchResult : Option ℕ × Option JSDate :=
    if ¬ isFinanciallyIndependent ∧ 0 < totalExpenses then
      match scanFI fiCond 1 50 with
      | some year => (some year, some (addYears now year))
      | none => (none, none)
    else if isFinanciallyIndependent then (some 0, some now)
    else (none, none)
  { currentMonthlyIncome := roundCents currentIncome.total
    currentMonthlyExpenses := roundCents totalExpenses
    currentSurplus := roundCents (currentIncome.total - totalExpenses)
    currentNetWorth := roundCents currentNetWorth
    yearsToFI := searchResult.1
    fiDate := searchResult.2
    fiProgress := roundCents fiProgress
    isFinanciallyIndependent := isFinanciallyIndependent }

/-- The unclamped balance step of the annuity loop: one month of interest
accrual followed by the constant payment,
`bal * (1 + monthlyRate) - monthlyPayment`. -/
def annuityIter (monthlyPayment monthlyRate bal : ℚ) : ℚ :=
  bal * (1 + monthlyRate) - monthlyPayment

/-- The Unix epoch instant, used as a concrete clock reading. -/
def epochDate : JSDate := { time := 0, year := 1970, month := 0 }

/-- A clock reading 100 ms after the epoch (same whole-month bucket). -/
def epochPlusTiny : JSDate := { time := 100, year := 1970, month := 0 }

/-- A clock reading two whole months after the epoch. -/
def epochPlusTwoMonths : JSDate := { time := 2 * msPerMonth, year := 1970, month := 2 }

/-- A clock reading twenty whole months after the epoch. -/
def epochPlusTwentyMonths : JSDate := { time := 20 * msPerMonth, year := 1971, month := 8 }

/-- Acquisition date of the concrete override scenario: year 0. -/
def c1PurchaseDate : JSDate := { time := 0, year := 2020, month := 0 }

/-- Override date of the concrete override scenario: exactly two years
after acquisition. -/
def c1OverrideDate : JSDate := { time := 2 * msPerYear, year := 2022, month := 0 }

/-- Query instant of the concrete override scenario: exactly three years
after acquisition, one year after the override. -/
def c1AsOf : JSDate := { time := 3 * msPerYear, year := 2023, month := 0 }

/-- Concrete asset of the override scenario: invested 10000 at year 0,
manually recorded at 8000 two years later, 8% expected return. -/
def c1Asset : Investment :=
  { type := InvestmentType.stock, amountInvested := 10000, currentValue := 10000,
    expectedAnnualROI := 8, purchaseDate := c1PurchaseDate,
    lastKnownValue := some 8000, lastKnownDate := some c1OverrideDate,
    monthlyContribution := 0, monthlyRentalIncome := none }

/-- Concrete real-estate asset with recorded rental income 100. -/
def c2Asset : Investment :=
  { type := InvestmentType.realEstate, amountInvested := 500000, currentValue := 500000,
    expectedAnnualROI := 3, purchaseDate := epochDate, lastKnownValue := none,
    lastKnownDate := none, monthlyContribution := 0, monthlyRentalIncome := some 100 }

/-- Concrete real-estate asset with positive value but no recorded rental
income. -/
def c10Asset : Investment :=
  { type := InvestmentType.realEstate, amountInvested := 500000, currentValue := 500000,
    expectedAnnualROI := 5, purchaseDate := epochDate, lastKnownValue := none,
    lastKnownDate := none, monthlyContribution := 0, monthlyRentalIncome := none }

/-- Settings with a positive flat monthly baseline expense. -/
def c3Settings : FIRESettings :=
  { DEFAULT_FIRE_SETTINGS with monthlyRequiredExpenses := 5 }

/-- Settings with baseline expense 50 (used to exercise the
already-crossed branch). -/
def c2Settings : FIRESettings :=
  { DEFAULT_FIRE_SETTINGS with monthlyRequiredExpenses := 50 }

/-- Concrete fixed-payment (annuity) loan: 1200 over 12 months at 12%. -/
def c4Loan : Loan :=
  { loanAmount := 1200, remainingBalance := 1200, interestRate := 12,
    startDate := epochDate, termMonths := 12, repaymentType := RepaymentType.annuity,
    canBeRefinanced := false }

/-- Concrete fixed-principal (serial) loan with zero interest rate:
1200 over 2 months at 0%. -/
def c5Loan : Loan :=
  { loanAmount := 1200, remainingBalance := 1200, interestRate := 0,
    startDate := epochDate, termMonths := 2, repaymentType := RepaymentType.serial,
    canBeRefinanced := false }

/-- Concrete serial loan started at the epoch: 1200 over 12 months at
12%. -/
def c6Loan : Loan :=
  { loanAmount := 1200, remainingBalance := 1200, interestRate := 12,
    startDate := epochDate, termMonths := 12, repaymentType := RepaymentType.serial,
    canBeRefinanced := false }

/-- Concrete serial loan starting ten months after the epoch: 1200 over
12 months at 12%. -/
def c7Loan : Loan :=
  { loanAmount := 1200, remainingBalance := 1200, interestRate := 12,
    startDate := { time := 10 * msPerMonth, year := 1970, month := 10 },
    termMonths := 12, repaymentType := RepaymentType.serial,
    canBeRefinanced := false }

/-- The concrete liability of the numeric scenario: 300000 at 3.6% over
360 months, fixed payment. -/
def c9Loan : Loan :=
  { loanAmount := 300000, remainingBalance := 300000, interestRate := 36 / 10,
    startDate := epochDate, termMonths := 360, repaymentType := RepaymentType.annuity,
    canBeRefinanced := false }

lemma annuitySchedule_length (pmt r : ℚ) :
    ∀ (k month : ℕ) (bal : ℚ), (annuitySchedule pmt r month k bal).length = k := by
  intro k
  induction k with
  | zero => intro month bal; rfl
  | succ k ih => intro month bal; simp [annuitySchedule, ih]

lemma serialSchedule_length (mp r : ℚ) :
    ∀ (k month : ℕ) (bal : ℚ), (serialSchedule mp r month k bal).length = k := by
  intro k
  induction k with
  | zero => intro month bal; rfl
  | succ k ih => intro month bal; simp [serialSchedule, ih]

lemma generateAmortizationSchedule_length (loan : Loan) (ror : Option ℚ) :
    (generateAmortizationSchedule loan ror).length = loan.termMonths.toNat := by
  unfold generateAmortizationSchedule
  cases loan.repaymentType <;>
    simp [annuitySchedule_length, serialSchedule_length]

/-- C8: `calculateAnnuityMonthlyPayment` is total and branch-complete over
its numeric edge cases: a non-positive term returns 0, a zero annual rate
with a positive term returns `principal / termMonths`, and otherwise the
standard annuity formula value is returned. -/
theorem c8_fixedPayment_edge_cases (principal annualRate : ℚ) (termMonths : ℤ) :
    (termMonths ≤ 0 → calculateAnnuityMonthlyPayment principal annualRate termMonths = 0) ∧
    (annualRate = 0 → 0 < termMonths →
      calculateAnnuityMonthlyPayment principal annualRate termMonths =
        principal / (termMonths : ℚ)) ∧
    (annualRate ≠ 0 → 0 < termMonths →
      calculateAnnuityMonthlyPayment principal annualRate termMonths =
        principal * ((annualRate / 100 / 12) *
            (1 + annualRate / 100 / 12) ^ termMonths) /
          ((1 + annualRate / 100 / 12) ^ termMonths - 1)) := by
  refine ⟨fun h => ?_, fun hr hn => ?_, fun hr hn => ?_⟩
  · simp [calculateAnnuityMonthlyPayment, h]
  · simp [calculateAnnuityMonthlyPayment, hr, not_le.mpr hn]
  · simp [calculateAnnuityMonthlyPayment, hr, not_le.mpr hn]

/-- Witness for C8 at the concrete edge input: zero rate over 12 months. -/
theorem c8_fixedPayment_edge_cases_witness :
    calculateAnnuityMonthlyPayment 1200 0 12 = 1200 / ((12 : ℤ) : ℚ) :=
  (c8_fixedPayment_edge_cases 1200 0 12).2.1 rfl (by norm_num)

/-- C10: a real-estate asset whose rental-income field is absent or zero
produces exactly zero monthly income, both now and at every projection
year, for every power model, every settings value and every clock
reading; the withdrawal-rate formula is never applied to it. -/
theorem c10_realEstate_zero_rental_income (mpow : ℚ → ℚ → ℚ)
    (investment : Investment) (settings : FIRESettings) (years : ℚ)
    (now : JSDate)
    (htype : investment.type = InvestmentType.realEstate)
    (hrent : investment.monthlyRentalIncome = none ∨
      investment.monthlyRentalIncome = some 0) :
    calculateMonthlyIncome mpow investment settings now = 0 ∧
    calculateProjectedMonthlyIncome mpow investment years settings now = 0 := by
  rcases hrent with h | h <;>
    simp [calculateMonthlyIncome, calculateProjectedMonthlyIncome, htype, h]

/-- Witness for C10 at the concrete rental-free real-estate asset. -/
theorem c10_realEstate_zero_rental_income_witness :
    calculateMonthlyIncome powInt c10Asset DEFAULT_FIRE_SETTINGS epochDate = 0 ∧
    calculateProjectedMonthlyIncome powInt c10Asset 7 DEFAULT_FIRE_SETTINGS epochDate = 0 :=
  c10_realEstate_zero_rental_income powInt c10Asset DEFAULT_FIRE_SETTINGS 7 epochDate
    rfl (Or.inl rfl)

/-- C1: when a manually recorded override (`lastKnownValue` with
`lastKnownDate`) is present, `calculateCurrentValue` is determined by the
override pair alone — replacing the originally invested amount and the
acquisition date changes nothing — and on the concrete scenario
(invested 10000 at year 0, overridden to 8000 at year 2, queried at year
3) the result is 8000 compounded for one year, which differs from 10000
compounded for three years. -/
theorem c1_override_is_sole_baseline :
    (∀ (mpow : ℚ → ℚ → ℚ) (inv : Investment) (asOf : JSDate) (v a : ℚ)
      (d p : JSDate), inv.lastKnownValue = some v → inv.lastKnownDate = some d →
      calculateCurrentValue mpow { inv with amountInvested := a, purchaseDate := p } asOf =
        calculateCurrentValue mpow inv asOf) ∧
    (∀ mpow : ℚ → ℚ → ℚ,
      calculateCurrentValue mpow c1Asset c1AsOf = 8000 * mpow (1 + 8 / 100) 1) ∧
    calculateCurrentValue powInt c1Asset c1AsOf ≠ 10000 * powInt (1 + 8 / 100) 3 := by
  refine ⟨fun mpow inv asOf v a d p hv hd => ?_, fun mpow => ?_, ?_⟩
  · simp only [calculateCurrentValue, hv, hd]
  · have hyears : getYearsBetweenDates c1OverrideDate c1AsOf = 1 := by
      norm_num [getYearsBetweenDates, c1OverrideDate, c1AsOf, msPerYear]
    simp [calculateCurrentValue, c1Asset, hyears, calculateCompoundInterest]
  · have hyears : getYearsBetweenDates c1OverrideDate c1AsOf = 1 := by
      norm_num [getYearsBetweenDates, c1OverrideDate, c1AsOf, msPerYear]
    simp only [calculateCurrentValue, c1Asset, hyears, calculateCompoundInterest]
    norm_num [powInt]

/-- Witness for C1: replacing the acquisition data of the concrete asset
leaves the reconstructed value unchanged. -/
theorem c1_override_is_sole_baseline_witness :
    calculateCurrentValue powInt
        { c1Asset with amountInvested := 999999, purchaseDate := epochDate } c1AsOf =
      calculateCurrentValue powInt c1Asset c1AsOf :=
  c1_override_is_sole_baseline.1 powInt c1Asset c1AsOf 8000 999999 c1OverrideDate
    epochDate rfl rfl

lemma calculateFIRESummary_currentMonthlyExpenses (mpow : ℚ → ℚ → ℚ)
    (investments : List Investment) (loans : List Loan) (settings : FIRESettings)
    (now : JSDate) :
    (calculateFIRESummary mpow investments loans settings now).currentMonthlyExpenses =
      roundCents ((calculateTotalLoanExpenses loans 0 settings.interestRateOverride
          settings.refinancingEnabled now).total + settings.monthlyRequiredExpenses) := by
  simp only [calculateFIRESummary]

/-- C6 (amended): `calculateLoanPaymentAtMonth` (with or without
refinancing) and `calculateCurrentBalance` read the ambient clock, and
their dependence on the instant factors through the whole-month counter
`monthsPassedSince`: two clock readings that yield the same month count
give identical results for these two functions.  No such factoring holds
for `calculateFIRESummary`, whose valuation terms use the reading at
millisecond precision and whose crossover date records the reading
itself; the counterexample shows both a payment call and a summary call
changing with the clock alone. -/
theorem c6_clock_enters_only_via_month_count (loan : Loan) (monthsFromNow : ℤ)
    (ror : Option ℚ) (useRefinancing : Bool) (now1 now2 : JSDate)
    (h : monthsPassedSince loan.startDate now1 = monthsPassedSince loan.startDate now2) :
    calculateLoanPaymentAtMonth loan monthsFromNow ror useRefinancing now1 =
      calculateLoanPaymentAtMonth loan monthsFromNow ror useRefinancing now2 ∧
    calculateCurrentBalance loan now1 = calculateCurrentBalance loan now2 := by
  constructor
  · simp only [calculateLoanPaymentAtMonth, calculateRefinancedPayment,
      getLoanBalanceAtMonth, h]
  · simp only [calculateCurrentBalance, h]

/-- Witness for C6 at concrete clock readings 100 ms apart inside the
same month bucket. -/
theorem c6_clock_enters_only_via_month_count_witness :
    calculateLoanPaymentAtMonth c6Loan 0 none false epochDate =
      calculateLoanPaymentAtMonth c6Loan 0 none false epochPlusTiny ∧
    calculateCurrentBalance c6Loan epochDate = calculateCurrentBalance c6Loan epochPlusTiny :=
  c6_clock_enters_only_via_month_count c6Loan 0 none false epochDate epochPlusTiny
    (by norm_num [monthsPassedSince, epochDate, epochPlusTiny, c6Loan, msPerMonth])

set_option maxHeartbeats 1000000 in
/-- Counterexample for C6 as stated: `calculateLoanPaymentAtMonth` and
`calculateFIRESummary` with identical explicit arguments return
different results under ambient clock readings two months apart, so
neither paymentAt nor summarize is determined by its explicit inputs
alone. -/
theorem c6_counterexample :
    calculateLoanPaymentAtMonth c6Loan 0 none false epochDate ≠
      calculateLoanPaymentAtMonth c6Loan 0 none false epochPlusTwoMonths ∧
    calculateFIRESummary powInt [] [c6Loan] DEFAULT_FIRE_SETTINGS epochDate ≠
      calculateFIRESummary powInt [] [c6Loan] DEFAULT_FIRE_SETTINGS epochPlusTwoMonths := by
  constructor
  swap
  · intro hcontra
    have hE1 : (calculateTotalLoanExpenses [c6Loan] 0
        DEFAULT_FIRE_SETTINGS.interestRateOverride
        DEFAULT_FIRE_SETTINGS.refinancingEnabled epochDate).total +
        DEFAULT_FIRE_SETTINGS.monthlyRequiredExpenses = 112 := by
      norm_num [calculateTotalLoanExpenses, calculateLoanPaymentAtMonth, c6Loan,
        epochDate, monthsPassedSince, msPerMonth, generateAmortizationSchedule,
        calculateSerialMonthlyPrincipal, serialSchedule, serialSchedule_length,
        DEFAULT_FIRE_SETTINGS]
    have hE2 : (calculateTotalLoanExpenses [c6Loan] 0
        DEFAULT_FIRE_SETTINGS.interestRateOverride
        DEFAULT_FIRE_SETTINGS.refinancingEnabled epochPlusTwoMonths).total +
        DEFAULT_FIRE_SETTINGS.monthlyRequiredExpenses = 110 := by
      norm_num [calculateTotalLoanExpenses, calculateLoanPaymentAtMonth, c6Loan,
        epochDate, epochPlusTwoMonths, monthsPassedSince, msPerMonth,
        generateAmortizationSchedule, calculateSerialMonthlyPrincipal,
        serialSchedule, serialSchedule_length, DEFAULT_FIRE_SETTINGS]
      rfl
    have hproj1 := calculateFIRESummary_currentMonthlyExpenses powInt [] [c6Loan]
      DEFAULT_FIRE_SETTINGS epochDate
    have hproj2 := calculateFIRESummary_currentMonthlyExpenses powInt [] [c6Loan]
      DEFAULT_FIRE_SETTINGS epochPlusTwoMonths
    rw [hcontra] at hproj1
    have hround : roundCents 112 = roundCents 110 := by
      rw [← hE1, ← hE2, ← hproj1, ← hproj2]
    norm_num [roundCents, round_eq] at hround
  intro hcontra
  have h1 : (calculateLoanPaymentAtMonth c6Loan 0 none false epochDate).interest = 12 := by
    norm_num [calculateLoanPaymentAtMonth, c6Loan, epochDate, monthsPassedSince,
      msPerMonth, generateAmortizationSchedule, calculateSerialMonthlyPrincipal,
      serialSchedule, serialSchedule_length]
  have h2 : (calculateLoanPaymentAtMonth c6Loan 0 none false epochPlusTwoMonths).interest = 10 := by
    norm_num [calculateLoanPaymentAtMonth, c6Loan, epochDate, epochPlusTwoMonths,
      monthsPassedSince, msPerMonth, generateAmortizationSchedule,
      calculateSerialMonthlyPrincipal, serialSchedule, serialSchedule_length]
    rfl
  rw [hcontra] at h1
  rw [h1] at h2
  norm_num at h2

/-- C2 (amended): whenever year-0 obligations (loan payments plus
baseline expense) are positive and income already covers them,
`calculateFIRESummary` reports financial independence with zero years to
crossover, without running the year-by-year search; with zero obligations
the guard `totalExpenses > 0` fails instead (see the counterexample). -/
theorem c2_already_crossed_when_obligations_positive (mpow : ℚ → ℚ → ℚ)
    (investments : List Investment) (loans : List Loan) (settings : FIRESettings)
    (now : JSDate)
    (hpos : 0 < (calculateTotalLoanExpenses loans 0 settings.interestRateOverride
        settings.refinancingEnabled now).total + settings.monthlyRequiredExpenses)
    (hcov : (calculateTotalLoanExpenses loans 0 settings.interestRateOverride
        settings.refinancingEnabled now).total + settings.monthlyRequiredExpenses ≤
      (calculateTotalMonthlyIncomeAtYear mpow investments 0 settings now).total) :
    (calculateFIRESummary mpow investments loans settings now).isFinanciallyIndependent
        = true ∧
    (calculateFIRESummary mpow investments loans settings now).yearsToFI = some 0 := by
  constructor <;> simp [calculateFIRESummary, hpos, hcov]

/-- Witness for C2 at a concrete portfolio: rental income 100 against a
baseline expense of 50. -/
theorem c2_already_crossed_when_obligations_positive_witness :
    (calculateFIRESummary powInt [c2Asset] [] c2Settings epochDate).isFinanciallyIndependent
        = true ∧
    (calculateFIRESummary powInt [c2Asset] [] c2Settings epochDate).yearsToFI = some 0 :=
  c2_already_crossed_when_obligations_positive powInt [c2Asset] [] c2Settings epochDate
    (by norm_num [calculateTotalLoanExpenses, c2Settings, DEFAULT_FIRE_SETTINGS])
    (by norm_num [calculateTotalLoanExpenses, calculateTotalMonthlyIncomeAtYear,
      calculateProjectedMonthlyIncome, c2Asset, c2Settings, DEFAULT_FIRE_SETTINGS, powInt])

/-- Counterexample for C2 as stated: with zero liabilities, zero baseline
expense and positive income (rental 100), the summary reports
`isFinanciallyIndependent = false` and `yearsToFI = none`, not the
already-crossed result, because the code additionally requires
`totalExpenses > 0`. -/
theorem c2_counterexample :
    0 < (calculateTotalMonthlyIncomeAtYear powInt [c2Asset] 0
        DEFAULT_FIRE_SETTINGS epochDate).total ∧
    (calculateFIRESummary powInt [c2Asset] [] DEFAULT_FIRE_SETTINGS
        epochDate).isFinanciallyIndependent = false ∧
    (calculateFIRESummary powInt [c2Asset] [] DEFAULT_FIRE_SETTINGS
        epochDate).yearsToFI = none := by
  refine ⟨?_, ?_, ?_⟩
  · norm_num [calculateTotalMonthlyIncomeAtYear, calculateProjectedMonthlyIncome,
      c2Asset, DEFAULT_FIRE_SETTINGS, powInt]
  · norm_num [calculateFIRESummary, calculateTotalLoanExpenses, DEFAULT_FIRE_SETTINGS]
  · norm_num [calculateFIRESummary, calculateTotalLoanExpenses, DEFAULT_FIRE_SETTINGS]

lemma scanFI_eq_some (f : ℕ → Bool) :
    ∀ (k y r : ℕ), scanFI f y k = some r →
      y ≤ r ∧ r < y + k ∧ f r = true ∧ ∀ z, y ≤ z → z < r → f z = false := by
  intro k
  induction k with
  | zero => intro y r h; simp [scanFI] at h
  | succ k ih =>
    intro y r h
    by_cases hf : f y = true
    · rw [scanFI, if_pos hf] at h
      obtain rfl : y = r := by simpa using h
      exact ⟨le_refl y, by omega, hf, fun z hz1 hz2 => absurd hz1 (by omega)⟩
    · rw [scanFI, if_neg hf] at h
      obtain ⟨h1, h2, h3, h4⟩ := ih (y + 1) r h
      refine ⟨by omega, by omega, h3, fun z hz1 hz2 => ?_⟩
      rcases Nat.eq_or_lt_of_le hz1 with rfl | hlt
      · simpa using hf
      · exact h4 z (by omega) hz2

lemma scanFI_eq_none (f : ℕ → Bool) :
    ∀ (k y : ℕ), scanFI f y k = none ↔ ∀ z, y ≤ z → z < y + k → f z = false := by
  intro k
  induction k with
  | zero =>
    intro y
    constructor
    · intro _ z hz1 hz2
      exact absurd hz2 (by omega)
    · intro _
      rfl
  | succ k ih =>
    intro y
    by_cases hf : f y = true
    · rw [scanFI, if_pos hf]
      constructor
      · intro h
        exact absurd h (by simp)
      · intro hall
        exact absurd (hall y (le_refl y) (by omega)) (by simp [hf])
    · rw [scanFI, if_neg hf]
      rw [ih (y + 1)]
      constructor
      · intro hall z hz1 hz2
        rcases Nat.eq_or_lt_of_le hz1 with rfl | hlt
        · simpa using hf
        · exact hall z (by omega) (by omega)
      · intro hall z hz1 hz2
        exact hall z (by omega) (by omega)

lemma calculateFIRESummary_scan_projections (mpow : ℚ → ℚ → ℚ)
    (investments : List Investment) (loans : List Loan) (settings : FIRESettings)
    (now : JSDate)
    (h1 : ¬ ((calculateTotalLoanExpenses loans 0 settings.interestRateOverride
        settings.refinancingEnabled now).total + settings.monthlyRequiredExpenses ≤
      (calculateTotalMonthlyIncomeAtYear mpow investments 0 settings now).total))
    (h2 : 0 < (calculateTotalLoanExpenses loans 0 settings.interestRateOverride
        settings.refinancingEnabled now).total + settings.monthlyRequiredExpenses) :
    (∀ y : ℕ,
      scanFI (fun year =>
        decide ((calculateTotalLoanExpenses loans ((year : ℤ) * 12)
            settings.interestRateOverride settings.refinancingEnabled now).total +
            settings.monthlyRequiredExpenses ≤
          (calculateTotalMonthlyIncomeAtYear mpow investments (year : ℚ)
            settings now).total)) 1 50 = some y →
      (calculateFIRESummary mpow investments loans settings now).yearsToFI = some y ∧
      (calculateFIRESummary mpow investments loans settings now).fiDate =
        some (addYears now (y : ℤ))) ∧
    (scanFI (fun year =>
        decide ((calculateTotalLoanExpenses loans ((year : ℤ) * 12)
            settings.interestRateOverride settings.refinancingEnabled now).total +
            settings.monthlyRequiredExpenses ≤
          (calculateTotalMonthlyIncomeAtYear mpow investments (year : ℚ)
            settings now).total)) 1 50 = none →
      (calculateFIRESummary mpow investments loans settings now).yearsToFI = none ∧
      (calculateFIRESummary mpow investments loans settings now).fiDate = none) := by
  constructor
  · intro y hscan
    simp [calculateFIRESummary, h1, h2, hscan]
  · intro hscan
    simp [calculateFIRESummary, h1, h2, hscan]

/-- C3: when year-0 income (non-negative, per the engine's well-formed
input contract) does not cover year-0 obligations, `calculateFIRESummary`
returns as `yearsToFI` the smallest year in 1..50 whose projected monthly
income reaches the projected obligations at month `year * 12`, and
returns `yearsToFI = none` and `fiDate = none` exactly when no year in
that range qualifies; no year beyond 50 is examined. -/
theorem c3_bounded_crossover_scan (mpow : ℚ → ℚ → ℚ)
    (investments : List Investment) (loans : List Loan) (settings : FIRESettings)
    (now : JSDate)
    (hnn : 0 ≤ (calculateTotalMonthlyIncomeAtYear mpow investments 0 settings now).total)
    (hlt : (calculateTotalMonthlyIncomeAtYear mpow investments 0 settings now).total <
      (calculateTotalLoanExpenses loans 0 settings.interestRateOverride
        settings.refinancingEnabled now).total + settings.monthlyRequiredExpenses) :
    (∀ y : ℕ,
      (calculateFIRESummary mpow investments loans settings now).yearsToFI = some y →
      1 ≤ y ∧ y ≤ 50 ∧
      ((calculateTotalLoanExpenses loans ((y : ℤ) * 12) settings.interestRateOverride
          settings.refinancingEnabled now).total + settings.monthlyRequiredExpenses ≤
        (calculateTotalMonthlyIncomeAtYear mpow investments (y : ℚ) settings now).total) ∧
      ∀ z : ℕ, 1 ≤ z → z < y →
        ¬ ((calculateTotalLoanExpenses loans ((z : ℤ) * 12) settings.interestRateOverride
            settings.refinancingEnabled now).total + settings.monthlyRequiredExpenses ≤
          (calculateTotalMonthlyIncomeAtYear mpow investments (z : ℚ) settings now).total)) ∧
    ((calculateFIRESummary mpow investments loans settings now).yearsToFI = none ↔
      ∀ y : ℕ, 1 ≤ y → y ≤ 50 →
        ¬ ((calculateTotalLoanExpenses loans ((y : ℤ) * 12) settings.interestRateOverride
            settings.refinancingEnabled now).total + settings.monthlyRequiredExpenses ≤
          (calculateTotalMonthlyIncomeAtYear mpow investments (y : ℚ) settings now).total)) ∧
    ((calculateFIRESummary mpow investments loans settings now).fiDate = none ↔
      (calculateFIRESummary mpow investments loans settings now).yearsToFI = none) := by
  have h1 : ¬ ((calculateTotalLoanExpenses loans 0 settings.interestRateOverride
      settings.refinancingEnabled now).total + settings.monthlyRequiredExpenses ≤
      (calculateTotalMonthlyIncomeAtYear mpow investments 0 settings now).total) :=
    not_le.mpr hlt
  have h2 : 0 < (calculateTotalLoanExpenses loans 0 settings.interestRateOverride
      settings.refinancingEnabled now).total + settings.monthlyRequiredExpenses :=
    lt_of_le_of_lt hnn hlt
  obtain ⟨hsome, hnone⟩ :=
    calculateFIRESummary_scan_projections mpow investments loans settings now h1 h2
  cases hscan : scanFI (fun year =>
      decide ((calculateTotalLoanExpenses loans ((year : ℤ) * 12)
          settings.interestRateOverride settings.refinancingEnabled now).total +
          settings.monthlyRequiredExpenses ≤
        (calculateTotalMonthlyIncomeAtYear mpow investments (year : ℚ)
          settings now).total)) 1 50 with
  | none =>
    obtain ⟨hy, hd⟩ := hnone hscan
    have hall := (scanFI_eq_none _ 50 1).mp hscan
    refine ⟨?_, ?_, ?_⟩
    · intro y hy2
      rw [hy] at hy2
      exact absurd hy2 (by simp)
    · rw [hy]
      constructor
      · intro _ y hy1 hy2
        have := hall y hy1 (by omega)
        simpa using this
      · intro _
        rfl
    · rw [hy, hd]
      simp
  | some y0 =>
    obtain ⟨hy, hd⟩ := hsome y0 hscan
    obtain ⟨ha, hb, hc, hmin⟩ := scanFI_eq_some _ 50 1 y0 hscan
    refine ⟨?_, ?_, ?_⟩
    · intro y hy2
      rw [hy] at hy2
      obtain rfl : y0 = y := by simpa using hy2
      refine ⟨ha, by omega, by simpa using hc, fun z hz1 hz2 => ?_⟩
      have := hmin z hz1 hz2
      simpa using this
    · rw [hy]
      constructor
      · intro hcontra
        exact absurd hcontra (by simp)
      · intro hall
        exact absurd (by simpa using hall y0 ha (by omega)) (by simpa using hc)
    · rw [hy, hd]
      simp

/-- Witness for C3 at a concrete portfolio: no assets, no loans, baseline
expense 5, so income never covers obligations and the scan exhausts all
fifty years. -/
theorem c3_bounded_crossover_scan_witness :
    (calculateFIRESummary powInt [] [] c3Settings epochDate).fiDate = none ↔
      (calculateFIRESummary powInt [] [] c3Settings epochDate).yearsToFI = none :=
  (c3_bounded_crossover_scan powInt [] [] c3Settings epochDate
    (by norm_num [calculateTotalMonthlyIncomeAtYear])
    (by norm_num [calculateTotalMonthlyIncomeAtYear, calculateTotalLoanExpenses,
      c3Settings, DEFAULT_FIRE_SETTINGS])).2.2

lemma serialSchedule_principal_mem (mp r : ℚ) :
    ∀ (k month : ℕ) (bal : ℚ),
      ∀ e ∈ serialSchedule mp r month k bal, e.principal = mp := by
  intro k
  induction k with
  | zero => intro month bal e he; simp [serialSchedule] at he
  | succ k ih =>
    intro month bal e he
    rw [serialSchedule] at he
    simp only [List.mem_cons] at he
    rcases he with he | he
    · rw [he]
    · exact ih (month + 1) _ e he

lemma serialSchedule_interest_chain (mp r : ℚ) (hmp : 0 < mp) (hr : 0 < r) :
    ∀ (k month : ℕ) (bal : ℚ), (∀ j : ℕ, j ≤ k → 0 ≤ bal - j * mp) →
      List.Chain' (fun a b => b.interest < a.interest)
        (serialSchedule mp r month k bal) := by
  intro k
  induction k with
  | zero => intro month bal _; simp [serialSchedule]
  | succ k ih =>
    intro month bal hinv
    have hb1 : (0 : ℚ) ≤ bal - mp := by
      have := hinv 1 (by omega)
      simpa using this
    have hclamp : max 0 (bal - mp) = bal - mp := max_eq_right hb1
    rw [serialSchedule, List.chain'_cons']
    constructor
    · intro y hy
      cases k with
      | zero => simp [serialSchedule] at hy
      | succ k2 =>
        rw [serialSchedule] at hy
        simp only [List.head?_cons, Option.mem_def, Option.some.injEq] at hy
        subst hy
        simp only
        rw [hclamp]
        have hblt : bal - mp < bal := by linarith
        exact mul_lt_mul_of_pos_right hblt hr
    · apply ih (month + 1)
      intro j hj
      rw [hclamp]
      have := hinv (j + 1) (by omega)
      push_cast at this ⊢
      linarith

/-- C5 (amended): every `principal` entry of a fixed-principal (serial)
schedule equals the constant `loanAmount / termMonths`, and when the
interest rate is positive the `interest` entries are strictly decreasing
from each month to the next; with a zero rate the interest entries are
all zero, so strict decrease fails (see the counterexample). -/
theorem c5_serial_schedule (loan : Loan)
    (hser : loan.repaymentType = RepaymentType.serial)
    (hp : 0 < loan.loanAmount) (hn : 0 < loan.termMonths) :
    (∀ e ∈ generateAmortizationSchedule loan none,
      e.principal = loan.loanAmount / (loan.termMonths : ℚ)) ∧
    (0 < loan.interestRate →
      List.Chain' (fun a b => b.interest < a.interest)
        (generateAmortizationSchedule loan none)) := by
  have hgen : generateAmortizationSchedule loan none =
      serialSchedule (loan.loanAmount / (loan.termMonths : ℚ))
        (loan.interestRate / 100 / 12) 1 loan.termMonths.toNat loan.loanAmount := by
    simp [generateAmortizationSchedule, hser, calculateSerialMonthlyPrincipal,
      not_le.mpr hn]
  have htm0 : ((loan.termMonths : ℚ)) ≠ 0 := by
    exact_mod_cast (by omega : loan.termMonths ≠ 0)
  have htmpos : (0 : ℚ) < (loan.termMonths : ℚ) := by exact_mod_cast hn
  constructor
  · rw [hgen]
    exact serialSchedule_principal_mem _ _ _ _ _
  · intro hrate
    rw [hgen]
    apply serialSchedule_interest_chain _ _ (div_pos hp htmpos) (by positivity)
    intro j hj
    have hjle : ((j : ℚ)) ≤ ((loan.termMonths : ℚ)) := by
      have : (j : ℤ) ≤ loan.termMonths := by omega
      exact_mod_cast this
    have hmul : (j : ℚ) * (loan.loanAmount / (loan.termMonths : ℚ)) ≤
        (loan.termMonths : ℚ) * (loan.loanAmount / (loan.termMonths : ℚ)) :=
      mul_le_mul_of_nonneg_right hjle (le_of_lt (div_pos hp htmpos))
    rw [mul_div_cancel₀ loan.loanAmount htm0] at hmul
    linarith

/-- Witness for C5 at the concrete serial loan with positive rate. -/
theorem c5_serial_schedule_witness :
    List.Chain' (fun a b => b.interest < a.interest)
      (generateAmortizationSchedule c6Loan none) :=
  (c5_serial_schedule c6Loan rfl (by norm_num [c6Loan]) (by norm_num [c6Loan])).2
    (by norm_num [c6Loan])

/-- Counterexample for C5 as stated: for the zero-rate serial loan (1200
over 2 months at 0%), every interest entry is 0, so the interest portions
are not strictly decreasing even though principal and term are
positive. -/
theorem c5_counterexample :
    ¬ ((∀ e ∈ generateAmortizationSchedule c5Loan none, e.principal = 600) ∧
      List.Chain' (fun a b => b.interest < a.interest)
        (generateAmortizationSchedule c5Loan none)) := by
  rintro ⟨-, hchain⟩
  have hs : generateAmortizationSchedule c5Loan none =
      [{ month := 1, payment := 600, principal := 600, interest := 0,
          remainingBalance := 600 },
        { month := 2, payment := 600, principal := 600, interest := 0,
          remainingBalance := 0 }] := by
    norm_num [generateAmortizationSchedule, c5Loan, calculateSerialMonthlyPrincipal,
      serialSchedule]
  rw [hs] at hchain
  simp [List.chain'_cons] at hchain

lemma annuityIter_iterate (pmt r bal : ℚ) (hr : r ≠ 0) :
    ∀ k : ℕ, (annuityIter pmt r)^[k] bal =
      bal * (1 + r) ^ k - pmt * (((1 + r) ^ k - 1) / r) := by
  intro k
  induction k with
  | zero => simp
  | succ k ih =>
    rw [Function.iterate_succ_apply', ih, annuityIter]
    field_simp
    ring

lemma annuityIter_iterate_zero_rate (pmt bal : ℚ) :
    ∀ k : ℕ, (annuityIter pmt 0)^[k] bal = bal - k * pmt := by
  intro k
  induction k with
  | zero => simp
  | succ k ih =>
    rw [Function.iterate_succ_apply', ih, annuityIter]
    push_cast
    ring

lemma annuitySchedule_sum_last (pmt r : ℚ) :
    ∀ (k month : ℕ) (bal : ℚ),
      (∀ j : ℕ, j < k → 0 ≤ (annuityIter pmt r)^[j + 1] bal) →
      ((annuitySchedule pmt r month k bal).map (fun e => e.principal)).sum =
          bal - (annuityIter pmt r)^[k] bal ∧
        ((annuitySchedule pmt r month k bal).getLast?).map
            (fun e => e.remainingBalance) =
          if k = 0 then none else some ((annuityIter pmt r)^[k] bal) := by
  intro k
  induction k with
  | zero => intro month bal _; simp [annuitySchedule]
  | succ k ih =>
    intro month bal h
    have h0 : 0 ≤ annuityIter pmt r bal := by
      have := h 0 (by omega)
      rwa [Function.iterate_one] at this
    have hclamp : max 0 (bal - (pmt - bal * r)) = annuityIter pmt r bal := by
      have heq : bal - (pmt - bal * r) = annuityIter pmt r bal := by
        rw [annuityIter]; ring
      rw [heq, max_eq_right h0]
    have hshift : ∀ j : ℕ, j < k →
        0 ≤ (annuityIter pmt r)^[j + 1] (annuityIter pmt r bal) := by
      intro j hj
      have := h (j + 1) (by omega)
      rwa [Function.iterate_succ_apply] at this
    obtain ⟨ihsum, ihlast⟩ := ih (month + 1) (annuityIter pmt r bal) hshift
    rw [annuitySchedule]
    simp only [hclamp]
    constructor
    · simp only [List.map_cons, List.sum_cons, ihsum]
      rw [Function.iterate_succ_apply]
      have heq : annuityIter pmt r bal = bal * (1 + r) - pmt := rfl
      linarith [heq]
    · cases k with
      | zero =>
        simp [annuitySchedule, Function.iterate_one]
      | succ k2 =>
        rw [annuitySchedule] at ihlast ⊢
        simp only [List.getLast?_cons_cons] at ihlast ⊢
        rw [ihlast]
        simp [Function.iterate_succ_apply]

/-- C4: for a fixed-payment (annuity) liability with positive principal,
positive term and non-negative rate, the principal portions of the
schedule sum exactly (over exact arithmetic) to the original principal,
and the final entry's remaining balance is exactly 0. -/
theorem c4_annuity_schedule (loan : Loan)
    (hann : loan.repaymentType = RepaymentType.annuity)
    (hp : 0 < loan.loanAmount) (hn : 0 < loan.termMonths)
    (hr : 0 ≤ loan.interestRate) :
    ((generateAmortizationSchedule loan none).map (fun e => e.principal)).sum =
        loan.loanAmount ∧
    ((generateAmortizationSchedule loan none).getLast?).map
        (fun e => e.remainingBalance) = some 0 := by
  have hgen : generateAmortizationSchedule loan none =
      annuitySchedule
        (calculateAnnuityMonthlyPayment loan.loanAmount loan.interestRate
          loan.termMonths)
        (loan.interestRate / 100 / 12) 1 loan.termMonths.toNat loan.loanAmount := by
    simp [generateAmortizationSchedule, hann]
  have htmint : (loan.termMonths.toNat : ℤ) = loan.termMonths :=
    Int.toNat_of_nonneg hn.le
  have hcast : ((loan.termMonths.toNat : ℚ)) = (loan.termMonths : ℚ) := by
    exact_mod_cast htmint
  have htmpos : (0 : ℚ) < (loan.termMonths : ℚ) := by exact_mod_cast hn
  have htmne : ((loan.termMonths : ℚ)) ≠ 0 := ne_of_gt htmpos
  set p := loan.loanAmount with hpdef
  set n := loan.termMonths.toNat with hndef
  set mr := loan.interestRate / 100 / 12 with hmr
  set pmt := calculateAnnuityMonthlyPayment loan.loanAmount loan.interestRate
    loan.termMonths with hpmt
  have hnn : n ≠ 0 := by omega
  have key : (∀ j : ℕ, j < n → 0 ≤ (annuityIter pmt mr)^[j + 1] p) ∧
      (annuityIter pmt mr)^[n] p = 0 := by
    rcases eq_or_lt_of_le hr with hr0 | hrpos
    · have hmr0 : mr = 0 := by rw [hmr, ← hr0]; norm_num
      have hpmt0 : pmt = p / (loan.termMonths : ℚ) := by
        rw [hpmt, calculateAnnuityMonthlyPayment, if_neg (not_le.mpr hn), ← hr0]
        simp
      constructor
      · intro j hj
        rw [hmr0, annuityIter_iterate_zero_rate, hpmt0]
        have hjle : ((j : ℚ) + 1) ≤ (loan.termMonths : ℚ) := by
          rw [← hcast]
          have : (j : ℤ) + 1 ≤ (n : ℤ) := by omega
          exact_mod_cast this
        have hmul : ((j : ℚ) + 1) * (p / (loan.termMonths : ℚ)) ≤
            (loan.termMonths : ℚ) * (p / (loan.termMonths : ℚ)) :=
          mul_le_mul_of_nonneg_right hjle (div_nonneg hp.le htmpos.le)
        rw [mul_div_cancel₀ p htmne] at hmul
        push_cast
        linarith
      · rw [hmr0, annuityIter_iterate_zero_rate, hpmt0, hcast,
          mul_div_cancel₀ p htmne, sub_self]
    · have hratene : loan.interestRate ≠ 0 := ne_of_gt hrpos
      have hmrpos : 0 < mr := by rw [hmr]; positivity
      have hmrne : mr ≠ 0 := ne_of_gt hmrpos
      have hq1 : (1 : ℚ) < 1 + mr := by linarith
      have hXgt : (1 : ℚ) < (1 + mr) ^ n := one_lt_pow₀ hq1 hnn
      have hXne : (1 + mr) ^ n - 1 ≠ 0 := ne_of_gt (by linarith)
      have hpmt1 : pmt = p * (mr * (1 + mr) ^ n) / ((1 + mr) ^ n - 1) := by
        rw [hpmt, calculateAnnuityMonthlyPayment, if_neg (not_le.mpr hn),
          if_neg hratene]
        rw [show loan.termMonths = (n : ℤ) from htmint.symm]
        simp only [zpow_natCast]
      have hform : ∀ k : ℕ, (annuityIter pmt mr)^[k] p =
          p * ((1 + mr) ^ n - (1 + mr) ^ k) / ((1 + mr) ^ n - 1) := by
        intro k
        rw [annuityIter_iterate pmt mr p hmrne k, hpmt1]
        field_simp
        ring
      constructor
      · intro j hj
        rw [hform]
        apply div_nonneg
        · apply mul_nonneg hp.le
          have hle : (1 + mr) ^ (j + 1) ≤ (1 + mr) ^ n :=
            pow_le_pow_right₀ (le_of_lt hq1) (by omega)
          linarith
        · linarith
      · rw [hform]
        simp
  obtain ⟨hA, hB⟩ := key
  obtain ⟨hsum, hlast⟩ := annuitySchedule_sum_last pmt mr n 1 p hA
  rw [hgen]
  constructor
  · rw [hsum, hB, sub_zero]
  · rw [hlast, if_neg hnn, hB]

/-- Witness for C4 at the concrete annuity loan (1200 over 12 months at
12%). -/
theorem c4_annuity_schedule_witness :
    ((generateAmortizationSchedule c4Loan none).map (fun e => e.principal)).sum =
        c4Loan.loanAmount ∧
    ((generateAmortizationSchedule c4Loan none).getLast?).map
        (fun e => e.remainingBalance) = some 0 :=
  c4_annuity_schedule c4Loan rfl (by norm_num [c4Loan]) (by norm_num [c4Loan])
    (by norm_num [c4Loan])

lemma annuitySchedule_getD_balance (pmt r : ℚ) :
    ∀ (k month : ℕ) (bal : ℚ) (j : ℕ), j < k →
      (∀ i : ℕ, i < k → 0 ≤ (annuityIter pmt r)^[i + 1] bal) →
      ((annuitySchedule pmt r month k bal).getD j default).remainingBalance =
        (annuityIter pmt r)^[j + 1] bal := by
  intro k
  induction k with
  | zero => intro month bal j hj _; exact absurd hj (Nat.not_lt_zero j)
  | succ k ih =>
    intro month bal j hj hnn
    have h0 : 0 ≤ annuityIter pmt r bal := by
      have := hnn 0 (by omega)
      rwa [Function.iterate_one] at this
    have hclamp : max 0 (bal - (pmt - bal * r)) = annuityIter pmt r bal := by
      have heq : bal - (pmt - bal * r) = annuityIter pmt r bal := by
        rw [annuityIter]; ring
      rw [heq, max_eq_right h0]
    have hshift : ∀ i : ℕ, i < k →
        0 ≤ (annuityIter pmt r)^[i + 1] (annuityIter pmt r bal) := by
      intro i hi
      have := hnn (i + 1) (by omega)
      rwa [Function.iterate_succ_apply] at this
    rw [annuitySchedule]
    simp only [hclamp]
    cases j with
    | zero =>
      simp [Function.iterate_one]
    | succ j2 =>
      simp only [List.getD_cons_succ]
      rw [ih (month + 1) (annuityIter pmt r bal) j2 (by omega) hshift,
        ← Function.iterate_succ_apply]

/-- C9 (amended): for the liability 300000 at 3.6% over 360 months under
the fixed-payment convention, the monthly payment is approximately
1363.94 (within ±0.01) — not 1363.75 — and the remaining balance after
120 months is strictly between 0 and 300000 and strictly below the
balance after 60 months. -/
theorem c9_concrete_scenario :
    (136393 / 100 ≤ calculateAnnuityMonthlyPayment 300000 (36 / 10) 360 ∧
      calculateAnnuityMonthlyPayment 300000 (36 / 10) 360 ≤ 136395 / 100) ∧
    (0 < ((generateAmortizationSchedule c9Loan none).getD 119
        default).remainingBalance ∧
      ((generateAmortizationSchedule c9Loan none).getD 119
        default).remainingBalance < 300000 ∧
      ((generateAmortizationSchedule c9Loan none).getD 119
          default).remainingBalance <
        ((generateAmortizationSchedule c9Loan none).getD 59
          default).remainingBalance) := by
  have hmr : (36 : ℚ) / 10 / 100 / 12 = 3 / 1000 := by norm_num
  have hq1 : (1 : ℚ) < 1 + 3 / 1000 := by norm_num
  have hXgt : (1 : ℚ) < (1 + 3 / 1000) ^ (360 : ℕ) := one_lt_pow₀ hq1 (by norm_num)
  have hXpos : (0 : ℚ) < (1 + 3 / 1000) ^ (360 : ℕ) - 1 := by linarith
  have hXne : ((1 + 3 / 1000 : ℚ)) ^ (360 : ℕ) - 1 ≠ 0 := ne_of_gt hXpos
  have hpmt1 : calculateAnnuityMonthlyPayment 300000 (36 / 10) 360 =
      300000 * (3 / 1000 * (1 + 3 / 1000) ^ (360 : ℕ)) /
        ((1 + 3 / 1000) ^ (360 : ℕ) - 1) := by
    rw [calculateAnnuityMonthlyPayment, if_neg (by norm_num), if_neg (by norm_num)]
    simp only [hmr]
    rw [show ((360 : ℤ)) = ((360 : ℕ) : ℤ) from rfl, zpow_natCast]
  have hgen : generateAmortizationSchedule c9Loan none =
      annuitySchedule (calculateAnnuityMonthlyPayment 300000 (36 / 10) 360)
        (3 / 1000) 1 360 300000 := by
    simp [generateAmortizationSchedule, c9Loan, hmr]
  have hform : ∀ k : ℕ,
      (annuityIter (calculateAnnuityMonthlyPayment 300000 (36 / 10) 360)
          (3 / 1000))^[k] 300000 =
        300000 * ((1 + 3 / 1000) ^ (360 : ℕ) - (1 + 3 / 1000) ^ k) /
          ((1 + 3 / 1000) ^ (360 : ℕ) - 1) := by
    intro k
    rw [annuityIter_iterate _ _ _ (by norm_num) k, hpmt1]
    field_simp
    ring
  have hnonneg : ∀ i : ℕ, i < 360 →
      0 ≤ (annuityIter (calculateAnnuityMonthlyPayment 300000 (36 / 10) 360)
          (3 / 1000))^[i + 1] 300000 := by
    intro i hi
    rw [hform]
    apply div_nonneg
    · apply mul_nonneg (by norm_num)
      have hle : ((1 + 3 / 1000 : ℚ)) ^ (i + 1) ≤ (1 + 3 / 1000) ^ (360 : ℕ) :=
        pow_le_pow_right₀ (le_of_lt hq1) (by omega)
      linarith
    · linarith
  have hb120 : ((generateAmortizationSchedule c9Loan none).getD 119
      default).remainingBalance =
      300000 * ((1 + 3 / 1000) ^ (360 : ℕ) - (1 + 3 / 1000) ^ (120 : ℕ)) /
        ((1 + 3 / 1000) ^ (360 : ℕ) - 1) := by
    rw [hgen, annuitySchedule_getD_balance _ _ 360 1 300000 119 (by norm_num) hnonneg,
      hform]
  have hb60 : ((generateAmortizationSchedule c9Loan none).getD 59
      default).remainingBalance =
      300000 * ((1 + 3 / 1000) ^ (360 : ℕ) - (1 + 3 / 1000) ^ (60 : ℕ)) /
        ((1 + 3 / 1000) ^ (360 : ℕ) - 1) := by
    rw [hgen, annuitySchedule_getD_balance _ _ 360 1 300000 59 (by norm_num) hnonneg,
      hform]
  refine ⟨⟨?_, ?_⟩, ?_, ?_, ?_⟩
  · rw [hpmt1]; norm_num
  · rw [hpmt1]; norm_num
  · rw [hb120]
    apply div_pos
    · apply mul_pos (by norm_num)
      have : ((1 + 3 / 1000 : ℚ)) ^ (120 : ℕ) < (1 + 3 / 1000) ^ (360 : ℕ) :=
        pow_lt_pow_right₀ hq1 (by norm_num)
      linarith
    · exact hXpos
  · rw [hb120, div_lt_iff₀ hXpos]
    have h120 : (1 : ℚ) < (1 + 3 / 1000) ^ (120 : ℕ) := one_lt_pow₀ hq1 (by norm_num)
    nlinarith
  · rw [hb120, hb60, div_lt_div_iff_of_pos_right hXpos]
    have hlt : ((1 + 3 / 1000 : ℚ)) ^ (60 : ℕ) < (1 + 3 / 1000) ^ (120 : ℕ) :=
      pow_lt_pow_right₀ hq1 (by norm_num)
    nlinarith

/-- Counterexample for C9 as stated: the exact fixed payment for 300000
at 3.6% over 360 months exceeds 1363.76, so it is not within ±0.01 of
1363.75. -/
theorem c9_counterexample :
    ¬ (136374 / 100 ≤ calculateAnnuityMonthlyPayment 300000 (36 / 10) 360 ∧
      calculateAnnuityMonthlyPayment 300000 (36 / 10) 360 ≤ 136376 / 100) := by
  rintro ⟨-, hle⟩
  have hgt : (136376 : ℚ) / 100 < calculateAnnuityMonthlyPayment 300000 (36 / 10) 360 := by
    rw [calculateAnnuityMonthlyPayment, if_neg (by norm_num), if_neg (by norm_num)]
    norm_num
  linarith

/-- C7 (amended): without refinancing, `calculateLoanPaymentAtMonth` at a
non-negative offset returns the zero triple when the target month
(elapsed whole months plus offset) is at or past the end of the term, and
otherwise returns the schedule entry at that target index.  For a
liability that has not started yet the elapsed-month count is clamped to
zero, so the entry at index `monthsFromNow` is returned — the first entry
only when `monthsFromNow = 0`, not for every query before the start (see
the counterexample). -/
theorem c7_payment_reads_schedule_entry (loan : Loan) (m : ℤ) (hm : 0 ≤ m)
    (ror : Option ℚ) (now : JSDate) :
    (loan.termMonths ≤ monthsPassedSince loan.startDate now + m →
      calculateLoanPaymentAtMonth loan m ror false now =
        { total := 0, interest := 0, principal := 0 }) ∧
    (monthsPassedSince loan.startDate now + m < loan.termMonths →
      calculateLoanPaymentAtMonth loan m ror false now =
        { total := ((generateAmortizationSchedule loan ror).getD
            (monthsPassedSince loan.startDate now + m).toNat default).payment,
          interest := ((generateAmortizationSchedule loan ror).getD
            (monthsPassedSince loan.startDate now + m).toNat default).interest,
          principal := ((generateAmortizationSchedule loan ror).getD
            (monthsPassedSince loan.startDate now + m).toNat default).principal }) := by
  have hlen : (generateAmortizationSchedule loan ror).length = loan.termMonths.toNat :=
    generateAmortizationSchedule_length loan ror
  have ht0 : 0 ≤ monthsPassedSince loan.startDate now + m :=
    add_nonneg (le_max_left 0 _) hm
  constructor
  · intro h
    simp [calculateLoanPaymentAtMonth, h]
  · intro h
    have hidx : (monthsPassedSince loan.startDate now + m).toNat <
        (generateAmortizationSchedule loan ror).length := by
      rw [hlen]; omega
    simp only [calculateLoanPaymentAtMonth]
    rw [if_neg (by simp)]
    rw [if_neg (not_le.mpr h)]
    rw [if_neg (by intro hc; exact absurd hc.1 (by omega))]
    have hmin : min (monthsPassedSince loan.startDate now + m)
        (((generateAmortizationSchedule loan ror).length : ℤ) - 1) =
        monthsPassedSince loan.startDate now + m := by
      apply min_eq_left
      rw [hlen]
      omega
    rw [hmin, List.getElem?_eq_getElem hidx]
    rw [List.getD_eq_getElem _ _ hidx]

/-- Witness for C7 at a concrete loan queried past its term end. -/
theorem c7_payment_reads_schedule_entry_witness :
    calculateLoanPaymentAtMonth c6Loan 0 none false epochPlusTwentyMonths =
      { total := 0, interest := 0, principal := 0 } :=
  (c7_payment_reads_schedule_entry c6Loan 0 le_rfl none epochPlusTwentyMonths).1
    (by norm_num [monthsPassedSince, c6Loan, epochDate, epochPlusTwentyMonths, msPerMonth])

/-- Counterexample for C7 as stated: for a loan starting ten months in
the future, the query two months from now targets a month before the
liability's start, yet the result is the third schedule entry (index 2),
not the first entry. -/
theorem c7_counterexample :
    epochDate.time + 2 * msPerMonth < c7Loan.startDate.time ∧
    (calculateLoanPaymentAtMonth c7Loan 2 none false epochDate).interest ≠
      ((generateAmortizationSchedule c7Loan none).headI).interest := by
  constructor
  · norm_num [epochDate, c7Loan, msPerMonth]
  · have h1 : (calculateLoanPaymentAtMonth c7Loan 2 none false epochDate).interest = 10 := by
      norm_num [calculateLoanPaymentAtMonth, c7Loan, epochDate, monthsPassedSince,
        msPerMonth, generateAmortizationSchedule, calculateSerialMonthlyPrincipal,
        serialSchedule, serialSchedule_length]
      rfl
    have h2 : ((generateAmortizationSchedule c7Loan none).headI).interest = 12 := by
      norm_num [c7Loan, generateAmortizationSchedule, calculateSerialMonthlyPrincipal,
        serialSchedule]
    rw [h1, h2]
    norm_num
